import Mathlib

/-!
Shallow embedding of the two benchmark programs in
`src/rust_async_std/src/main.rs` and `src/rust_tokio/src/main.rs`.

Each program reads the process argument list, indexes it at position 1
(`args[1]`, a panic when out of bounds), parses the string with Rust's
integer `FromStr` (`parse::<usize>` resp. `parse::<i32>`, `unwrap`
panics on error), pushes `num_tasks` ten-second sleep futures into a
vector with `for _ in 0..num_tasks`, and awaits `join_all` on the vector.

Machine integers are modelled as `Nat`/`Int` with explicit range checks:
`usize` is modelled at the 64-bit pointer width of the benchmark hosts,
`i32` with the range `[-2^31, 2^31)`.  A delay operation is represented
by its duration in seconds, so the vector of futures becomes a
`List Nat` in creation order.
-/

/-- Value of an ASCII decimal digit, `none` for any other character;
mirrors the per-character acceptance of Rust's integer `FromStr`. -/
def digitVal (c : Char) : Option Nat :=
  if c.isDigit then some (c.toNat - 48) else none

/-- Accumulate decimal digits left to right, failing on the first
non-digit character, as Rust's `from_str_radix` loop does (the model
computes the unbounded value; the range check is applied afterwards,
which accepts exactly the same strings as Rust's checked accumulation). -/
def parseDigitsAux : List Char → Nat → Option Nat
  | [], acc => some acc
  | c :: cs, acc =>
    match digitVal c with
    | some d => parseDigitsAux cs (acc * 10 + d)
    | none => none

/-- Parse a nonempty all-digit string to its value; Rust rejects an
empty digit sequence. -/
def parseNatDigits (cs : List Char) : Option Nat :=
  if cs.isEmpty then none else parseDigitsAux cs 0

/-- Drop one optional leading `+` sign, as Rust's unsigned `FromStr`
does before reading digits. -/
def stripSignPlus (s : List Char) : List Char :=
  match s with
  | c :: rest => if c = '+' then rest else s
  | [] => []

/-- Model of Rust `str::parse::<usize>` at 64-bit pointer width:
optional `+`, then a nonempty run of ASCII digits, value below `2^64`. -/
def parseUsize (s : List Char) : Option Nat :=
  match parseNatDigits (stripSignPlus s) with
  | some n => if n < 2 ^ 64 then some n else none
  | none => none

/-- Model of Rust `str::parse::<i32>`: optional `+` or `-` sign, then a
nonempty run of ASCII digits, value within `[-2^31, 2^31)`. -/
def parseI32 (s : List Char) : Option Int :=
  match s with
  | [] => none
  | c :: rest =>
    if c = '-' then
      match parseNatDigits rest with
      | some n => if n ≤ 2 ^ 31 then some (-(n : Int)) else none
      | none => none
    else
      match parseNatDigits (stripSignPlus s) with
      | some n => if n < 2 ^ 31 then some (n : Int) else none
      | none => none

/-- Observable result of one program run: `args[1]` out of bounds panics,
`unwrap` on a parse error panics, otherwise the run succeeds carrying the
vector of sleep durations that was spawned and joined. -/
inductive Outcome where
  | panicMissingArg : Outcome
  | panicParseError : Outcome
  | success : List Nat → Outcome
  deriving DecidableEq, Repr

/-- Vector built by `for _ in 0..n { tasks.push(sleep(Duration::from_secs(10))) }`:
each iteration appends one 10-second delay operation. -/
def spawnTasks : Nat → List Nat
  | 0 => []
  | n + 1 => spawnTasks n ++ [10]

/-- Model of `src/rust_async_std/src/main.rs` `main`: index the argument
list at 1, parse as `usize`, spawn that many 10-second delays. -/
def mainAsyncStd (args : List String) : Outcome :=
  match args[1]? with
  | none => .panicMissingArg
  | some s =>
    match parseUsize s.data with
    | none => .panicParseError
    | some n => .success (spawnTasks n)

/-- Model of `src/rust_tokio/src/main.rs` `main`: index the argument
list at 1, parse as `i32`, spawn one delay per element of the Rust range
`0..num_tasks` (empty when `num_tasks ≤ 0`). -/
def mainTokio (args : List String) : Outcome :=
  match args[1]? with
  | none => .panicMissingArg
  | some s =>
    match parseI32 s.data with
    | none => .panicParseError
    | some n => .success (spawnTasks n.toNat)

/-- Process exit status: 0 on normal return from `main`, Rust's panic
exit status 101 on either panic. -/
def exitStatus : Outcome → Nat
  | .success _ => 0
  | _ => 101

/-- Number of delay operations actually spawned during the run. -/
def spawnedCount : Outcome → Nat
  | .success ts => ts.length
  | _ => 0

/-- Did the run reach the final `join_all` and terminate normally? -/
def isSuccess : Outcome → Bool
  | .success _ => true
  | _ => false

/-- Value of `join_all(tasks).await`: one unit result per future, in
order; the combinator itself cannot fail. -/
def joinAll (ts : List Nat) : List Unit :=
  ts.map fun _ => ()

/-- Idealized completion time of `join_all`: the futures are polled
concurrently, so the join resolves when the longest delay resolves. -/
def joinAllTime (ts : List Nat) : Nat :=
  ts.foldr max 0

/-- Two consecutive invocations of the async-std program with the same
argument list; the source reads no persistent state, so each run is a
function of the arguments alone. -/
def runTwiceAsyncStd (args : List String) : Outcome × Outcome :=
  (mainAsyncStd args, mainAsyncStd args)

/-- Two consecutive invocations of the tokio program with the same
argument list. -/
def runTwiceTokio (args : List String) : Outcome × Outcome :=
  (mainTokio args, mainTokio args)

/-- Unfolding lemma: the spawn loop produces a list of identical
10-second delays. -/
theorem spawnTasks_eq_replicate (n : Nat) : spawnTasks n = List.replicate n 10 := by
  induction n with
  | zero => rfl
  | succ k ih => rw [spawnTasks, ih, List.replicate_succ']

/-- The spawn loop runs exactly `n` iterations. -/
theorem spawnTasks_length (n : Nat) : (spawnTasks n).length = n := by
  rw [spawnTasks_eq_replicate]; exact List.length_replicate n 10

/-- Each delay completes no later than the join resolves. -/
theorem le_joinAllTime (ts : List Nat) (d : Nat) (hd : d ∈ ts) : d ≤ joinAllTime ts := by
  induction ts with
  | nil => cases hd
  | cons a ts ih =>
    rcases List.mem_cons.mp hd with h | h
    · subst h; exact le_max_left _ _
    · exact le_trans (ih h) (le_max_right _ _)

/-- A string starting with a minus sign never parses as `usize`. -/
theorem parseUsize_dash (rest : List Char) : parseUsize ('-' :: rest) = none := rfl

/-- Only a minus-signed string can parse to a negative `i32`. -/
theorem parseI32_neg_eq_dash (s : List Char) (m : Int)
    (h : parseI32 s = some m) (hm : m < 0) : ∃ rest, s = '-' :: rest := by
  match s with
  | [] => simp [parseI32] at h
  | c :: rest =>
    by_cases hc : c = '-'
    · exact ⟨rest, by rw [hc]⟩
    · exfalso
      simp only [parseI32, if_neg hc] at h
      split at h
      · split at h
        · have := Option.some.inj h; omega
        · exact Option.noConfusion h
      · exact Option.noConfusion h

/-- A `usize` value inside the `i32` range parses identically as `i32`. -/
theorem parseI32_of_parseUsize (s : List Char) (n : Nat)
    (h : parseUsize s = some n) (hn : n < 2 ^ 31) : parseI32 s = some (n : Int) := by
  match s with
  | [] => simp [parseUsize, stripSignPlus, parseNatDigits] at h
  | c :: rest =>
    have hc : c ≠ '-' := by
      intro hc; rw [hc, parseUsize_dash] at h; simp at h
    simp only [parseUsize] at h
    split at h
    · rename_i k heq
      split at h
      · have hkn := Option.some.inj h
        subst hkn
        simp only [parseI32, if_neg hc]
        split
        · rename_i k2 heq2
          have hk2 : k = k2 := Option.some.inj (heq.symm.trans heq2)
          subst hk2
          rw [if_pos hn]
        · rename_i heq2
          exact absurd (heq.symm.trans heq2) (by simp)
      · exact Option.noConfusion h
    · exact Option.noConfusion h

/-- With a present second argument the async-std run never reports a
missing argument. -/
theorem mainAsyncStd_ne_missing (args : List String) (s : String)
    (h : args[1]? = some s) : mainAsyncStd args ≠ .panicMissingArg := by
  rcases hp : parseUsize s.data with _ | k <;> simp [mainAsyncStd, h, hp]

/-- With a present second argument the tokio run never reports a
missing argument. -/
theorem mainTokio_ne_missing (args : List String) (s : String)
    (h : args[1]? = some s) : mainTokio args ≠ .panicMissingArg := by
  rcases hp : parseI32 s.data with _ | k <;> simp [mainTokio, h, hp]

/-- C1: for every successfully parsed task count, each program builds,
by iterating the loop `for _ in 0..num_tasks`, exactly that many delay
operations, each with the fixed 10-second duration, collected in
creation order. -/
theorem spawn_fanout_exact (args : List String) (s : String)
    (h1 : args[1]? = some s) :
    (∀ n : Nat, parseUsize s.data = some n →
      mainAsyncStd args = .success (spawnTasks n) ∧
      (spawnTasks n).length = n ∧ spawnTasks n = List.replicate n 10) ∧
    (∀ m : Int, parseI32 s.data = some m → 0 ≤ m →
      mainTokio args = .success (spawnTasks m.toNat) ∧
      (spawnTasks m.toNat).length = m.toNat ∧
      spawnTasks m.toNat = List.replicate m.toNat 10) := by
  constructor
  · intro n hp
    refine ⟨?_, spawnTasks_length n, spawnTasks_eq_replicate n⟩
    simp only [mainAsyncStd, h1, hp]
  · intro m hp _
    refine ⟨?_, spawnTasks_length _, spawnTasks_eq_replicate _⟩
    simp only [mainTokio, h1, hp]

/-- C1 witness: with argument `3`, both programs spawn three 10-second
delays. -/
theorem spawn_fanout_exact_witness :
    mainAsyncStd ["prog", "3"] = .success [10, 10, 10] ∧
    mainTokio ["prog", "3"] = .success [10, 10, 10] := by
  have h := spawn_fanout_exact ["prog", "3"] "3" rfl
  exact ⟨(h.1 3 (by decide)).1, (h.2 3 (by decide) (by decide)).1⟩

/-- C2 counterexample: on argument `-1` the async-std program panics at
`parse::<usize>().unwrap()` while the tokio program succeeds spawning
zero tasks, so the success/failure outcomes differ. -/
theorem runtime_equivalence_counterexample :
    ¬ (isSuccess (mainAsyncStd ["prog", "-1"]) = isSuccess (mainTokio ["prog", "-1"]) ∧
       spawnedCount (mainAsyncStd ["prog", "-1"]) = spawnedCount (mainTokio ["prog", "-1"])) := by
  decide

/-- C2 amended: the two programs agree whenever the argument at index 1
is absent, parses as a `usize` value inside the `i32` range, or parses
as neither type; they diverge only where the two integer types accept
different strings (negative or very large values). -/
theorem runtime_equivalence_amended (args : List String) :
    (args[1]? = none →
      mainAsyncStd args = .panicMissingArg ∧ mainTokio args = .panicMissingArg) ∧
    (∀ s, args[1]? = some s →
      (∀ n : Nat, parseUsize s.data = some n → n < 2 ^ 31 →
        mainAsyncStd args = .success (spawnTasks n) ∧
        mainTokio args = .success (spawnTasks n) ∧
        isSuccess (mainAsyncStd args) = isSuccess (mainTokio args) ∧
        spawnedCount (mainAsyncStd args) = spawnedCount (mainTokio args)) ∧
      (parseUsize s.data = none → parseI32 s.data = none →
        mainAsyncStd args = .panicParseError ∧ mainTokio args = .panicParseError)) := by
  refine ⟨fun h => ⟨by simp [mainAsyncStd, h], by simp [mainTokio, h]⟩, fun s hs => ⟨?_, ?_⟩⟩
  · intro n hp hn
    have hA : mainAsyncStd args = .success (spawnTasks n) := by
      simp only [mainAsyncStd, hs, hp]
    have hB : mainTokio args = .success (spawnTasks n) := by
      simp only [mainTokio, hs, parseI32_of_parseUsize s.data n hp hn, Int.toNat_natCast]
    exact ⟨hA, hB, by rw [hA, hB], by rw [hA, hB]⟩
  · intro hu hi
    exact ⟨by simp only [mainAsyncStd, hs, hu], by simp only [mainTokio, hs, hi]⟩

/-- C2 amended witness: on argument `5` both programs succeed with five
spawned delays. -/
theorem runtime_equivalence_amended_witness :
    mainAsyncStd ["prog", "5"] = .success (spawnTasks 5) ∧
    mainTokio ["prog", "5"] = .success (spawnTasks 5) := by
  have h := ((runtime_equivalence_amended ["prog", "5"]).2 "5" rfl).1 5 (by decide) (by decide)
  exact ⟨h.1, h.2.1⟩

/-- C3: a missing or unparseable argument makes each program terminate
fatally with a non-zero exit status and no spawned task; there is no
retry and no default value anywhere in the control flow. -/
theorem invalid_invocation_fatal (args : List String) :
    (args[1]? = none →
      mainAsyncStd args = .panicMissingArg ∧ mainTokio args = .panicMissingArg ∧
      exitStatus (mainAsyncStd args) ≠ 0 ∧ exitStatus (mainTokio args) ≠ 0 ∧
      spawnedCount (mainAsyncStd args) = 0 ∧ spawnedCount (mainTokio args) = 0) ∧
    (∀ s, args[1]? = some s →
      (parseUsize s.data = none →
        mainAsyncStd args = .panicParseError ∧
        exitStatus (mainAsyncStd args) ≠ 0 ∧ spawnedCount (mainAsyncStd args) = 0) ∧
      (parseI32 s.data = none →
        mainTokio args = .panicParseError ∧
        exitStatus (mainTokio args) ≠ 0 ∧ spawnedCount (mainTokio args) = 0)) := by
  constructor
  · intro h
    have hA : mainAsyncStd args = .panicMissingArg := by simp [mainAsyncStd, h]
    have hB : mainTokio args = .panicMissingArg := by simp [mainTokio, h]
    exact ⟨hA, hB, by rw [hA]; decide, by rw [hB]; decide, by rw [hA]; rfl, by rw [hB]; rfl⟩
  · intro s hs
    constructor
    · intro hu
      have hA : mainAsyncStd args = .panicParseError := by simp only [mainAsyncStd, hs, hu]
      exact ⟨hA, by rw [hA]; decide, by rw [hA]; rfl⟩
    · intro hi
      have hB : mainTokio args = .panicParseError := by simp only [mainTokio, hs, hi]
      exact ⟨hB, by rw [hB]; decide, by rw [hB]; rfl⟩

/-- C3 witness: no argument at all, and the non-numeric argument `abc`,
each produce a non-zero exit status. -/
theorem invalid_invocation_fatal_witness :
    exitStatus (mainAsyncStd ["prog"]) ≠ 0 ∧
    exitStatus (mainAsyncStd ["prog", "abc"]) ≠ 0 ∧
    exitStatus (mainTokio ["prog", "abc"]) ≠ 0 := by
  refine ⟨((invalid_invocation_fatal ["prog"]).1 rfl).2.2.1, ?_, ?_⟩
  · exact (((invalid_invocation_fatal ["prog", "abc"]).2 "abc" rfl).1 (by decide)).2.1
  · exact (((invalid_invocation_fatal ["prog", "abc"]).2 "abc" rfl).2 (by decide)).2.1

/-- C4: when the argument parses to zero, the vector of delays is
empty, the join resolves in zero idealized time with nothing to await,
and the program exits with status 0. -/
theorem zero_tasks_immediate_join (args : List String) (s : String)
    (h1 : args[1]? = some s) :
    (parseUsize s.data = some 0 →
      mainAsyncStd args = .success [] ∧ spawnedCount (mainAsyncStd args) = 0 ∧
      joinAllTime [] = 0 ∧ exitStatus (mainAsyncStd args) = 0) ∧
    (parseI32 s.data = some 0 →
      mainTokio args = .success [] ∧ spawnedCount (mainTokio args) = 0 ∧
      joinAllTime [] = 0 ∧ exitStatus (mainTokio args) = 0) := by
  constructor
  · intro hp
    have hA : mainAsyncStd args = .success [] := by simp [mainAsyncStd, h1, hp, spawnTasks]
    exact ⟨hA, by rw [hA]; rfl, rfl, by rw [hA]; rfl⟩
  · intro hp
    have hB : mainTokio args = .success [] := by simp [mainTokio, h1, hp, spawnTasks]
    exact ⟨hB, by rw [hB]; rfl, rfl, by rw [hB]; rfl⟩

/-- C4 witness: argument `0` yields an empty task vector and exit
status 0 in both programs. -/
theorem zero_tasks_immediate_join_witness :
    mainAsyncStd ["prog", "0"] = .success [] ∧
    mainTokio ["prog", "0"] = .success [] := by
  have h := zero_tasks_immediate_join ["prog", "0"] "0" rfl
  exact ⟨(h.1 (by decide)).1, (h.2 (by decide)).1⟩

/-- C5: any argument parsing to a negative `i32` is rejected by the
unsigned `usize` parser, so the async-std program panics, while the
tokio program accepts it and spawns zero tasks. -/
theorem negative_argument_asymmetry (args : List String) (s : String) (m : Int)
    (h1 : args[1]? = some s) (hp : parseI32 s.data = some m) (hm : m < 0) :
    parseUsize s.data = none ∧
    mainAsyncStd args = .panicParseError ∧ exitStatus (mainAsyncStd args) ≠ 0 ∧
    mainTokio args = .success [] ∧ spawnedCount (mainTokio args) = 0 := by
  obtain ⟨rest, hrest⟩ := parseI32_neg_eq_dash s.data m hp hm
  have hu : parseUsize s.data = none := by rw [hrest]; exact parseUsize_dash rest
  have hA : mainAsyncStd args = .panicParseError := by simp only [mainAsyncStd, h1, hu]
  have htn : m.toNat = 0 := Int.toNat_eq_zero.mpr (le_of_lt hm)
  have hB : mainTokio args = .success [] := by
    simp only [mainTokio, h1, hp, htn, spawnTasks]
  exact ⟨hu, hA, by rw [hA]; decide, hB, by rw [hB]; rfl⟩

/-- C5 witness: argument `-1` is a parse error for async-std but spawns
zero tasks under tokio. -/
theorem negative_argument_asymmetry_witness :
    parseUsize "-1".data = none ∧ mainTokio ["prog", "-1"] = .success [] := by
  have h := negative_argument_asymmetry ["prog", "-1"] "-1" (-1) rfl (by decide) (by decide)
  exact ⟨h.1, h.2.2.2.1⟩

/-- C6: once the argument parses, nothing can fail: both programs reach
the join, the join yields one unit result per spawned delay, every delay
resolves no later than the join does, and the exit status is 0. -/
theorem join_infallible_success (args : List String) (s : String)
    (h1 : args[1]? = some s) :
    (∀ n : Nat, parseUsize s.data = some n →
      mainAsyncStd args = .success (spawnTasks n) ∧ exitStatus (mainAsyncStd args) = 0 ∧
      joinAll (spawnTasks n) = List.replicate n () ∧
      ∀ d ∈ spawnTasks n, d ≤ joinAllTime (spawnTasks n)) ∧
    (∀ m : Int, parseI32 s.data = some m →
      mainTokio args = .success (spawnTasks m.toNat) ∧ exitStatus (mainTokio args) = 0 ∧
      joinAll (spawnTasks m.toNat) = List.replicate m.toNat () ∧
      ∀ d ∈ spawnTasks m.toNat, d ≤ joinAllTime (spawnTasks m.toNat)) := by
  have hj : ∀ k : Nat, joinAll (spawnTasks k) = List.replicate k () := by
    intro k
    rw [spawnTasks_eq_replicate, joinAll, List.map_replicate]
  constructor
  · intro n hp
    have hA : mainAsyncStd args = .success (spawnTasks n) := by
      simp only [mainAsyncStd, h1, hp]
    exact ⟨hA, by rw [hA]; rfl, hj n, fun d hd => le_joinAllTime _ d hd⟩
  · intro m hp
    have hB : mainTokio args = .success (spawnTasks m.toNat) := by
      simp only [mainTokio, h1, hp]
    exact ⟨hB, by rw [hB]; rfl, hj m.toNat, fun d hd => le_joinAllTime _ d hd⟩

/-- C6 witness: with argument `2` both programs exit with status 0. -/
theorem join_infallible_success_witness :
    exitStatus (mainAsyncStd ["prog", "2"]) = 0 ∧
    exitStatus (mainTokio ["prog", "2"]) = 0 := by
  have h := join_infallible_success ["prog", "2"] "2" rfl
  exact ⟨(h.1 2 (by decide)).2.1, (h.2 2 (by decide)).2.1⟩

/-- C8: each program's outcome is a deterministic function of the
argument list alone; two runs with the same arguments yield the same
outcome and the same exit status, with no state carried between runs. -/
theorem idempotent_deterministic_runs (args : List String) :
    (runTwiceAsyncStd args).1 = (runTwiceAsyncStd args).2 ∧
    (runTwiceTokio args).1 = (runTwiceTokio args).2 ∧
    exitStatus (runTwiceAsyncStd args).1 = exitStatus (runTwiceAsyncStd args).2 ∧
    exitStatus (runTwiceTokio args).1 = exitStatus (runTwiceTokio args).2 :=
  ⟨rfl, rfl, rfl, rfl⟩

/-- C9: with at least one argument after the program name the index-1
access is in bounds and the missing-argument abort is unreachable; with
none, both programs abort at the index access itself, irrespective of
any parsing. -/
theorem index_one_access_bounds (args : List String) :
    (2 ≤ args.length →
      (∃ s, args[1]? = some s) ∧
      mainAsyncStd args ≠ .panicMissingArg ∧ mainTokio args ≠ .panicMissingArg) ∧
    (args.length < 2 →
      args[1]? = none ∧
      mainAsyncStd args = .panicMissingArg ∧ mainTokio args = .panicMissingArg) := by
  match args with
  | [] => exact ⟨fun h => by simp at h, fun _ => ⟨rfl, rfl, rfl⟩⟩
  | [a] => exact ⟨fun h => by simp at h, fun _ => ⟨rfl, rfl, rfl⟩⟩
  | a :: b :: rest =>
    have hb : (a :: b :: rest)[1]? = some b := by simp
    refine ⟨fun _ => ⟨⟨b, hb⟩, mainAsyncStd_ne_missing _ b hb, mainTokio_ne_missing _ b hb⟩,
            fun h => ?_⟩
    simp only [List.length_cons] at h
    omega

/-- C9 witness: `["prog", "3"]` avoids the missing-argument abort while
`["prog"]` hits it. -/
theorem index_one_access_bounds_witness :
    mainAsyncStd ["prog", "3"] ≠ .panicMissingArg ∧
    mainAsyncStd ["prog"] = .panicMissingArg := by
  exact ⟨((index_one_access_bounds ["prog", "3"]).1 (by decide)).2.1,
         ((index_one_access_bounds ["prog"]).2 (by decide)).2.1⟩

/-- C10: the outcome of each program depends only on the argument at
index 1; argument lists that agree there give identical outcomes and
identical spawn counts, whatever follows at index 2 and beyond. -/
theorem outcome_depends_only_on_index_one (args1 args2 : List String) (s : String)
    (h1 : args1[1]? = some s) (h2 : args2[1]? = some s) :
    mainAsyncStd args1 = mainAsyncStd args2 ∧ mainTokio args1 = mainTokio args2 ∧
    spawnedCount (mainAsyncStd args1) = spawnedCount (mainAsyncStd args2) ∧
    spawnedCount (mainTokio args1) = spawnedCount (mainTokio args2) := by
  have hA : mainAsyncStd args1 = mainAsyncStd args2 := by
    unfold mainAsyncStd; rw [h1, h2]
  have hB : mainTokio args1 = mainTokio args2 := by
    unfold mainTokio; rw [h1, h2]
  exact ⟨hA, hB, by rw [hA], by rw [hB]⟩

/-- C10 witness: a trailing extra argument does not change the outcome. -/
theorem outcome_depends_only_on_index_one_witness :
    mainAsyncStd ["progA", "2", "extra"] = mainAsyncStd ["progB", "2"] ∧
    mainTokio ["progA", "2", "extra"] = mainTokio ["progB", "2"] := by
  have h := outcome_depends_only_on_index_one ["progA", "2", "extra"] ["progB", "2"] "2" rfl rfl
  exact ⟨h.1, h.2.1⟩
